import Mathlib

/-!
Shallow embedding of the real-time conversation delivery subsystem of the
ai-customer-support-chat repository: the client chat store
(frontend/src/stores/ChatStore.js), the server message router
(backend/controllers/chatController.js) and the completion-provider service
(backend/services/openaiService.js), together with theorems settling the
specification claims about them.
-/

namespace ChatApp

/-- Contiguous-sublist test on character lists. -/
def infixOfList (needle : List Char) : List Char → Bool
  | [] => needle.isEmpty
  | c :: rest => needle.isPrefixOf (c :: rest) || infixOfList needle rest

/-- Substring containment, modelling JS `haystack.includes(needle)`. -/
def includes (haystack needle : String) : Bool :=
  infixOfList needle.toList haystack.toList

/-- JS `s.trim()`: strip leading and trailing whitespace. -/
def jsTrim (s : String) : String :=
  String.mk (((s.toList.dropWhile Char.isWhitespace).reverse.dropWhile
    Char.isWhitespace).reverse)

/-- JS `s.toLowerCase()`. -/
def jsToLower (s : String) : String := String.mk (s.toList.map Char.toLower)

/-- JS `s.substring(0, n)`. -/
def jsTake (n : Nat) (s : String) : String := String.mk (s.toList.take n)

/-! ## Client data model (frontend/src/stores/ChatStore.js) -/

/-- A message as held in the client store's `messages` list.  `temp` models the
transient `_temp` marker of optimistic messages and `tempId` the client
generated `_id`; server-confirmed messages carry neither. -/
structure ClientMsg where
  sender : String
  content : String
  timestamp : Nat
  messageType : String
  temp : Bool := false
  tempId : Option String := none
deriving DecidableEq, Repr

/-- A conversation as held by the client store. -/
structure ClientConv where
  id : String
  title : String
  messages : List ClientMsg
  lastActivity : Nat
deriving DecidableEq, Repr

/-- `maxRetries = 5` from the ChatStore field declaration. -/
def maxRetries : Nat := 5

/-- The mutable fields of the ChatStore singleton that the socket logic
touches.  `socketExists`/`socketConnected` model `this.socket` and
`this.socket.connected`; `reconnectTimeout` and `heartbeatInterval` record
whether the corresponding timer is pending. -/
structure StoreState where
  conversations : List ClientConv := []
  currentConversation : Option ClientConv := none
  messages : List ClientMsg := []
  isLoading : Bool := false
  isConnected : Bool := false
  isTyping : Bool := false
  error : Option String := none
  socketExists : Bool := false
  socketConnected : Bool := false
  connectionRetries : Nat := 0
  reconnectTimeout : Bool := false
  heartbeatInterval : Bool := false
deriving DecidableEq, Repr

/-- The store's initial state (the field initializers of the class). -/
def initStore : StoreState := {}

/-- `setConnected(val)`: sets `isConnected` and resets the retry counter on
any successful connect. -/
def setConnected (val : Bool) (s : StoreState) : StoreState :=
  let s := { s with isConnected := val }
  if val then { s with connectionRetries := 0 } else s

/-- `setCurrentConversation(conv)`: replaces the current conversation and the
message list wholesale with the loaded conversation's messages. -/
def setCurrentConversation (conv : Option ClientConv) (s : StoreState) : StoreState :=
  match conv with
  | some c => { s with currentConversation := some c, messages := c.messages }
  | none => { s with currentConversation := none, messages := [] }

/-- `addConversation(conv)`: unshift onto the conversations list. -/
def addConversation (c : ClientConv) (s : StoreState) : StoreState :=
  { s with conversations := c :: s.conversations }

/-- `addMessage(msg)`: pushes onto `messages` and refreshes
`currentConversation.lastActivity`, but only when a current conversation
exists. -/
def addMessage (now : Nat) (msg : ClientMsg) (s : StoreState) : StoreState :=
  match s.currentConversation with
  | some c =>
      { s with messages := s.messages ++ [msg],
               currentConversation := some { c with lastActivity := now } }
  | none => s

/-- `updateConversationTitle(title)`: truncate to 100 characters, only when a
current conversation exists and the title is non-empty. -/
def updateConversationTitle (title : String) (s : StoreState) : StoreState :=
  match s.currentConversation with
  | some c =>
      if title ≠ "" then
        { s with currentConversation := some { c with title := jsTake 100 title } }
      else s
  | none => s

/-- The optimistic user message built by `sendMessage` /
`sendMessageViaSocket` before transmission. -/
def tempMessageOf (message : String) (now : Nat) : ClientMsg :=
  { sender := "user", content := jsTrim message, timestamp := now,
    messageType := "text", temp := true, tempId := some (toString now) }

/-- The synchronous prefix of `sendMessage`: reject an empty message with a
caller-visible failure, otherwise append the optimistic pending message.  The
returned Bool is whether the send was accepted (the source has no check
against an already-outstanding pending message). -/
def sendMessageOptimistic (message : String) (now : Nat) (s : StoreState) :
    Bool × StoreState :=
  if jsTrim message = "" then (false, s)
  else (true, addMessage now (tempMessageOf message now) s)

/-- The synchronous prefix of `sendMessageViaSocket`: empty messages are
rejected; without a connected socket it delegates to the API path; otherwise
it appends the optimistic pending message and emits `newMessage`. -/
def sendMessageViaSocketOptimistic (message : String) (now : Nat) (s : StoreState) :
    Bool × StoreState :=
  if jsTrim message = "" then (false, s)
  else if !(s.socketExists && s.socketConnected) then
    sendMessageOptimistic message now s
  else (true, addMessage now (tempMessageOf message now) s)

/-- Number of pending (`_temp`) messages in the store. -/
def pendingCount (s : StoreState) : Nat :=
  (s.messages.filter (fun m => m.temp)).length

/-- The `messageSent` socket handler: remove every `_temp` message, then
`addMessage` the server-confirmed message. -/
def onMessageSent (now : Nat) (m : ClientMsg) (s : StoreState) : StoreState :=
  addMessage now m { s with messages := s.messages.filter (fun x => !x.temp) }

/-- The `botMessage` socket handler: clear typing, then append the reply. -/
def onBotMessage (now : Nat) (m : ClientMsg) (s : StoreState) : StoreState :=
  addMessage now m { s with isTyping := false }

/-- The body of the 10s `socketTimeout` callback before it re-invokes
`sendMessage`: drop every `_temp` message. -/
def clearPendingMessages (s : StoreState) : StoreState :=
  { s with messages := s.messages.filter (fun m => !m.temp) }

/-- The success continuation of `sendMessage` once the API responds:
drop `_temp` messages, then either adopt the returned conversation wholesale
(when it is not the current one, also adding it to the list when absent) or
overwrite the current conversation's messages and `lastActivity`; finally the
auto-generated title is applied when no conversation id was supplied. -/
def onApiSendSuccess (conversationIdArg : Option String) (conv : ClientConv)
    (userMessagePresent : Bool) (s : StoreState) : StoreState :=
  let s := { s with messages := s.messages.filter (fun m => !m.temp) }
  let s :=
    match s.currentConversation with
    | some c =>
        if c.id = conv.id then
          { s with currentConversation :=
                     some { c with messages := conv.messages,
                                   lastActivity := conv.lastActivity },
                   messages := conv.messages }
        else
          let s := setCurrentConversation (some conv) s
          if (s.conversations.filter (fun x => x.id = conv.id)).isEmpty then
            addConversation conv s
          else s
    | none =>
        let s := setCurrentConversation (some conv) s
        if (s.conversations.filter (fun x => x.id = conv.id)).isEmpty then
          addConversation conv s
        else s
  if userMessagePresent && conversationIdArg.isNone && conv.title ≠ "" then
    updateConversationTitle conv.title s
  else s

/-! ## Connection lifecycle (ChatStore.js socket handlers) -/

/-- `scheduleReconnection()`: clear any previously scheduled retry, give up at
the ceiling, otherwise increment the counter and schedule one attempt.  The
Bool reports whether an attempt was scheduled. -/
def scheduleReconnection (s : StoreState) : StoreState × Bool :=
  let s := { s with reconnectTimeout := false }
  if maxRetries ≤ s.connectionRetries then (s, false)
  else ({ s with connectionRetries := s.connectionRetries + 1,
                 reconnectTimeout := true }, true)

/-- The `connect` handler: mark connected (resetting retries), clear the
error, and start the heartbeat. -/
def onConnect (s : StoreState) : StoreState :=
  let s := setConnected true { s with socketConnected := true }
  { s with error := none, connectionRetries := 0, heartbeatInterval := true }

/-- The error text chosen by the `connect_error` handler. -/
def connectErrorText (m : String) : String :=
  if includes m "Authentication" then "Authentication failed. Please login again."
  else if includes m "timeout" then "Connection timeout. Check your network."
  else "Connection failed: " ++ m

/-- The `connect_error` handler: mark disconnected, record the error, and
retry with backoff while below the ceiling.  The Bool reports whether an
attempt was scheduled. -/
def onConnectError (m : String) (s : StoreState) : StoreState × Bool :=
  let s := setConnected false { s with error := some (connectErrorText m) }
  if s.connectionRetries < maxRetries then scheduleReconnection s
  else (s, false)

/-- The `disconnect` handler: mark disconnected, stop typing, clear the
heartbeat, then branch on the reason: a server-initiated disconnect and every
other non-client reason invoke `scheduleReconnection`; a client-initiated
disconnect does not.  Returns (state, invoked scheduleReconnection,
an attempt was actually scheduled). -/
def onDisconnect (reason : String) (s : StoreState) : StoreState × Bool × Bool :=
  let s := setConnected false { s with isTyping := false,
                                       heartbeatInterval := false,
                                       socketConnected := false }
  if reason = "io server disconnect" then
    ((scheduleReconnection s).1, true, (scheduleReconnection s).2)
  else if reason = "io client disconnect" then (s, false, false)
  else
    ((scheduleReconnection s).1, true, (scheduleReconnection s).2)

/-- `connectSocket()`: requires authentication, is a no-op when already
connected, otherwise replaces the socket with a fresh, not-yet-connected one.
It does not touch the pending reconnection timer. -/
def connectSocket (authenticated : Bool) (s : StoreState) : StoreState :=
  if !authenticated then { s with error := some "Login required for real-time chat" }
  else if s.socketExists && s.socketConnected then s
  else { s with socketExists := true, socketConnected := false }

/-- `reconnect()`: reset the retry counter, clear the error and call
`connectSocket`. -/
def reconnect (authenticated : Bool) (s : StoreState) : StoreState :=
  connectSocket authenticated { s with connectionRetries := 0, error := none }

/-- `disconnectSocket()`: clear the heartbeat and any pending reconnection
timer, then tear the socket down. -/
def disconnectSocket (s : StoreState) : StoreState :=
  let s := { s with heartbeatInterval := false, reconnectTimeout := false }
  if s.socketExists then
    let s := setConnected false { s with socketExists := false,
                                         socketConnected := false }
    { s with isTyping := false, connectionRetries := 0 }
  else s

/-- The body of the timer scheduled by `scheduleReconnection` when it fires:
it calls `socket.connect()` only when still authenticated and the socket is
not already connected.  The Bool reports whether a connection attempt was
issued. -/
def reconnectTimerFire (authenticated : Bool) (s : StoreState) : StoreState × Bool :=
  if authenticated && !(s.socketExists && s.socketConnected) then
    (s, s.socketExists)
  else (s, false)

/-- The `connectionStatus` getter. -/
def connectionStatus (s : StoreState) : String :=
  if s.isConnected && s.socketExists && s.socketConnected then "connected"
  else if 0 < s.connectionRetries && s.connectionRetries < maxRetries then "reconnecting"
  else if maxRetries ≤ s.connectionRetries then "failed"
  else "disconnected"

/-- The connection lifecycle events observed by the store's socket
handlers. -/
inductive ConnEvent
  | connected
  | connectError (msg : String)
  | disconnected (reason : String)
deriving DecidableEq, Repr

/-- One lifecycle event step; the Bool reports whether a reconnection attempt
was scheduled by this step. -/
def stepConn (s : StoreState) : ConnEvent → StoreState × Bool
  | .connected => (onConnect s, false)
  | .connectError m => onConnectError m s
  | .disconnected r => ((onDisconnect r s).1, (onDisconnect r s).2.2)

/-- Run a sequence of lifecycle events, counting the reconnection attempts
scheduled since the most recent successful connect. -/
def runConn (s : StoreState) (n : Nat) : List ConnEvent → StoreState × Nat
  | [] => (s, n)
  | e :: es =>
      runConn (stepConn s e).1
        (match e with
         | .connected => 0
         | _ => n + (if (stepConn s e).2 then 1 else 0)) es

/-! ## Server data model (backend/models/Conversation.js) -/

/-- Provider-reply metadata as built by openaiService.  Confidence is stored
in tenths (JS 0.8 becomes 8) since the source only ever copies it around. -/
structure AiMetadata where
  model : String
  tokens : Nat
  confidenceTenths : Nat
  contextUsed : Bool
  isMock : Bool
  errorType : Option String := none
deriving DecidableEq, Repr

/-- The `response`/`metadata` object returned by
`openaiService.generateResponse`. -/
structure AiResponse where
  response : String
  metadata : AiMetadata
deriving DecidableEq, Repr

/-- The metadata attached to a stored message: absent, a provider reply's
metadata, or the `{ error: true }` marker of the apologetic fallback. -/
inductive MsgMetadata
  | noMeta
  | ai (meta : AiMetadata)
  | errorFlag
deriving DecidableEq, Repr

/-- A message subdocument of a Conversation. -/
structure ServerMsg where
  sender : String
  content : String
  timestamp : Nat
  messageType : String
  metadata : MsgMetadata := .noMeta
deriving DecidableEq, Repr

/-- A Conversation document (the fields the message paths touch). -/
structure Conversation where
  userId : String
  sessionId : String
  title : String
  messages : List ServerMsg
  status : String
  lastActivity : Nat
deriving DecidableEq, Repr

/-- Auto-derived title: first 50 characters of the message, with an ellipsis
when truncated. -/
def titleFromMessage (message : String) : String :=
  jsTake 50 message ++ (if 50 < message.length then "..." else "")

/-- The Conversation created when no existing one is found. -/
def newConversation (userId sessionId message : String) (now : Nat) : Conversation :=
  { userId := userId, sessionId := sessionId, title := titleFromMessage message,
    messages := [], status := "active", lastActivity := now }

/-- The user message appended by both send paths. -/
def userMessageOf (message : String) (now : Nat) : ServerMsg :=
  { sender := "user", content := jsTrim message, timestamp := now,
    messageType := "text" }

/-- The bot message built from a provider reply. -/
def botMessageOf (resp : AiResponse) (now : Nat) : ServerMsg :=
  { sender := "bot", content := resp.response, timestamp := now,
    messageType := "text", metadata := .ai resp.metadata }

/-- The fixed apologetic fallback text used when the provider call fails. -/
def apologyText : String :=
  "I apologize, but I\x27m currently experiencing technical difficulties. Please try again in a moment."

/-- The fallback reply persisted and emitted on provider failure; its
metadata is `{ error: true }`. -/
def fallbackReply (now : Nat) : ServerMsg :=
  { sender := "bot", content := apologyText, timestamp := now,
    messageType := "text", metadata := .errorFlag }

/-! ## Completion-provider service (backend/services/openaiService.js) -/

/-- The mutable service state that affects `generateResponse`.
`rateLimited` stands for `rateLimitedUntil && Date.now() < rateLimitedUntil`. -/
structure AiServiceState where
  useMockResponse : Bool
  failureCount : Nat
  rateLimited : Bool
deriving DecidableEq, Repr

/-- `maxFailures = 3` from the service constructor. -/
def maxFailures : Nat := 3

/-- What the external OpenAI API call does: returns a (possibly choice-less)
completion, raises with an HTTP status, aborts on the 30s timeout, or fails
some other way. -/
inductive ProviderOutcome
  | success (content : Option String) (model : String) (tokens : Nat)
  | errStatus (status : Nat)
  | abortTimeout
  | otherError
deriving DecidableEq, Repr

/-- An entry of the service's built-in knowledge base. -/
structure KbEntry where
  question : String
  answer : String
  keywords : List String
deriving Repr

/-- The six hard-coded knowledge-base entries. -/
def knowledgeBase : List KbEntry :=
  [ { question := "What are your support hours?",
      answer := "Our chat support is available 24/7. Phone support is Monday-Friday, 9 AM to 6 PM EST.",
      keywords := ["support", "hours", "availability", "time", "phone", "chat"] },
    { question := "How can I reset my password?",
      answer := "You can reset your password by clicking \x27Forgot Password\x27 on the login page, or contact support for assistance.",
      keywords := ["password", "reset", "forgot", "login", "account"] },
    { question := "How do I contact support?",
      answer := "You can contact support through this chat system, email support@company.com, or call us at 1-800-SUPPORT.",
      keywords := ["contact", "support", "email", "help", "phone", "call"] },
    { question := "What payment methods do you accept?",
      answer := "We accept major credit cards (Visa, MasterCard, American Express), PayPal, and bank transfers.",
      keywords := ["payment", "credit card", "paypal", "billing", "pay"] },
    { question := "How do I cancel my subscription?",
      answer := "You can cancel your subscription from your account settings or contact our support team for assistance.",
      keywords := ["cancel", "subscription", "account", "unsubscribe"] },
    { question := "Is there a mobile app available?",
      answer := "Yes, our mobile app is available for iOS and Android devices. You can download it from the App Store or Google Play.",
      keywords := ["mobile", "app", "ios", "android", "download"] } ]

/-- The numbered context block built from the matching entries. -/
def buildContext (entries : List KbEntry) : String :=
  entries.enum.foldl
    (fun acc p =>
      acc ++ toString (p.1 + 1) ++ ". Q: " ++ p.2.question ++ "\n   A: " ++
        p.2.answer ++ "\n\n")
    "Relevant company information:\n"

/-- `getRelevantContext`: keyword search over the knowledge base, at most
three entries, `none` when nothing matches. -/
def getRelevantContext (userMessage : String) : Option String :=
  let searchTerms := jsToLower userMessage
  let relevantEntries :=
    (knowledgeBase.filter
      (fun e => e.keywords.any (fun k => includes searchTerms (jsToLower k)))).take 3
  if relevantEntries.isEmpty then none else some (buildContext relevantEntries)

/-- The service's system prompt. -/
def systemPrompt : String :=
  "You are a helpful customer support assistant. Provide accurate, polite, and concise responses based on the available company information. If you don\x27t have specific information about a topic, politely direct the user to contact support directly."

/-- `l.slice(-n)` of JS: the last `n` elements. -/
def sliceLast (n : Nat) (l : List α) : List α := l.drop (l.length - n)

/-- The (role, content) message array assembled for the OpenAI request:
system prompt plus optional context, the last 10 non-system history entries,
then the current user message. -/
def providerRequest (userMessage : String) (conversationHistory : List ServerMsg)
    (relevantContext : Option String) : List (String × String) :=
  let head : String × String :=
    ("system", systemPrompt ++
      (match relevantContext with
       | some ctx => "\n\nRelevant information:\n" ++ ctx
       | none => ""))
  (head ::
    ((sliceLast 10 conversationHistory).filter
        (fun m => m.sender != "" && m.content != "" && m.sender != "system")).map
      (fun m => (if m.sender = "user" then "user" else "assistant", m.content)))
    ++ [("user", userMessage)]

/-- `getMockResponse(userMessage, errorType)`: the error apology is assigned
first but every matching keyword branch overwrites it; only when no keyword
matches does the apology (or, without an error, the generic template)
survive.  Metadata always carries `isMock = true`. -/
def getMockResponse (userMessage : String) (errorType : Option String) : AiResponse :=
  let lower := jsToLower userMessage
  let response :=
    if includes lower "hello" || includes lower "hi" || includes lower "hey" then
      "👋 Hello! Welcome to our customer support. How can I assist you today?"
    else if includes lower "help" || includes lower "support" then
      "I\x27m here to help! You can ask me about:\n• Account issues and login problems\n• Product information and pricing\n• Technical support and troubleshooting\n• Billing and subscription questions\n\nWhat can I help you with?"
    else if includes lower "price" || includes lower "cost" || includes lower "billing" then
      "💰 For detailed pricing information, please visit our pricing page or contact our sales team at sales@company.com. We offer flexible plans to suit different needs!"
    else if includes lower "account" || includes lower "login" || includes lower "password" then
      "🔐 For account-related issues:\n• Reset password: Use \"Forgot Password\" on the login page\n• Account locked: Contact support\n• Profile updates: Check your account settings\n\nNeed more help? Contact our support team!"
    else if includes lower "bug" || includes lower "error" || includes lower "problem" then
      "🐛 I understand you\x27re experiencing technical difficulties. To help resolve this:\n1. Try refreshing the page\n2. Clear your browser cache\n3. Check your internet connection\n4. Contact our tech team with specific error details\n\nWhat specific issue are you encountering?"
    else if includes lower "cancel" || includes lower "unsubscribe" then
      "❌ To cancel your subscription:\n1. Go to Account Settings\n2. Select \"Subscription\"\n3. Click \"Cancel Subscription\"\n\nOr contact our support team for assistance. We\x27d love to know how we can improve!"
    else if includes lower "contact" || includes lower "phone" || includes lower "email" then
      "📞 You can reach us:\n• Chat: Right here with me!\n• Email: support@company.com\n• Phone: 1-800-SUPPORT (Mon-Fri, 9 AM - 6 PM EST)\n• Help Center: Visit our FAQ section\n\nI\x27m available 24/7 for immediate assistance!"
    else if includes lower "hours" || includes lower "time" || includes lower "available" then
      "🕒 Our support hours:\n• Chat Support: 24/7 (that\x27s me!)\n• Phone Support: Monday-Friday, 9 AM - 6 PM EST\n• Email Support: We respond within 24 hours\n\nHow can I help you right now?"
    else if includes lower "thank" || includes lower "thanks" then
      "😊 You\x27re very welcome! I\x27m glad I could help. Is there anything else you need assistance with today?"
    else
      match errorType with
      | some e =>
          "I apologize, but our AI service is currently experiencing issues (" ++ e ++
            "). However, I\x27m here to help with some basic information!"
      | none =>
          "Thank you for your question! While I don\x27t have specific information about \"" ++
            userMessage ++
            "\" right now, I\x27d be happy to connect you with our support team who can provide more detailed assistance.\n\n📧 Email: support@company.com\n💬 Or continue chatting here - I might be able to help with other questions!"
  { response := response,
    metadata := { model := "mock-response", tokens := response.length,
                  confidenceTenths := 7, contextUsed := true, isMock := true,
                  errorType := errorType } }

/-- `generateResponse(userMessage, conversationHistory)`: the whole body sits
in one try/catch whose catch always returns a mock response, so the function
is total — every provider failure is converted into a mock reply and the
service state is updated (rate-limit window, mock switch, failure count). -/
def generateResponse (userMessage : String) (conversationHistory : List ServerMsg)
    (st : AiServiceState) (outcome : ProviderOutcome) : AiResponse × AiServiceState :=
  if st.rateLimited then (getMockResponse userMessage (some "Rate limited"), st)
  else if st.useMockResponse || maxFailures ≤ st.failureCount then
    (getMockResponse userMessage none, st)
  else
    let relevantContext := getRelevantContext userMessage
    let _messages := providerRequest userMessage conversationHistory relevantContext
    match outcome with
    | .success (some content) model tokens =>
        ({ response := content,
           metadata := { model := model, tokens := tokens,
                         confidenceTenths := if relevantContext.isSome then 8 else 5,
                         contextUsed := relevantContext.isSome, isMock := false } },
         { st with failureCount := 0, rateLimited := false })
    | .success none _ _ =>
        (getMockResponse userMessage (some "Service error"),
         { st with failureCount := st.failureCount + 1 })
    | .errStatus status =>
        if status = 401 then
          (getMockResponse userMessage (some "Invalid API key"),
           { st with useMockResponse := true })
        else if status = 429 then
          (getMockResponse userMessage (some "Rate limit exceeded"),
           { st with rateLimited := true })
        else if status = 500 || status = 502 || status = 503 then
          (getMockResponse userMessage (some "Service unavailable"),
           { st with failureCount := st.failureCount + 1 })
        else
          (getMockResponse userMessage (some "Service error"),
           { st with failureCount := st.failureCount + 1 })
    | .abortTimeout => (getMockResponse userMessage (some "Request timeout"), st)
    | .otherError =>
        (getMockResponse userMessage (some "Service error"),
         { st with failureCount := st.failureCount + 1 })

/-- The provider as the router sees it when wired to this service: a call
that always returns a reply.  (`Except` is the router's view of a provider
that may throw; this implementation never takes the error side.) -/
def providerOfService (st : AiServiceState) (outcome : ProviderOutcome) :
    String → List ServerMsg → Except Unit AiResponse :=
  fun m h => .ok (generateResponse m h st outcome).1

/-! ## Conversation message router (backend/controllers/chatController.js) -/

/-- The externally observable steps the router performs, in order: socket
emissions and conversation saves. -/
inductive Action
  | emitTyping
  | emitMessageSent (m : ServerMsg)
  | persist (messages : List ServerMsg)
  | emitStoppedTyping
  | emitBotMessage (m : ServerMsg)
  | emitError (text : String)
deriving DecidableEq, Repr

/-- What a send path produced: the saved conversation, the two messages, the
history handed to the provider, whether the provider-failure branch ran, and
the ordered action trace. -/
structure RouterOutcome where
  conversation : Conversation
  userMessage : ServerMsg
  botReply : ServerMsg
  providerHistory : List ServerMsg
  aiErrorUsed : Bool
  actions : List Action
deriving Repr

/-- `socketHandlers.handleNewMessage`: emit typing, locate or create the
conversation, append the user message, emit `messageSent` (before any save),
call the provider with the full message list; on success append the reply,
set `lastActivity`, save, stop typing and emit the reply; on failure stop
typing, append the fixed fallback reply, save and emit it. -/
def handleNewMessage (message userId : String) (found : Option Conversation)
    (sessionId : String) (now : Nat)
    (ai : String → List ServerMsg → Except Unit AiResponse) : RouterOutcome :=
  let conv0 :=
    match found with
    | some c => c
    | none => newConversation userId sessionId message now
  let userMessage := userMessageOf message now
  let conv1 := { conv0 with messages := conv0.messages ++ [userMessage] }
  match ai message conv1.messages with
  | .ok aiResponse =>
      let botMessage := botMessageOf aiResponse now
      let conv2 := { conv1 with messages := conv1.messages ++ [botMessage],
                                lastActivity := now }
      { conversation := conv2, userMessage := userMessage, botReply := botMessage,
        providerHistory := conv1.messages, aiErrorUsed := false,
        actions := [.emitTyping, .emitMessageSent userMessage,
                    .persist conv2.messages, .emitStoppedTyping,
                    .emitBotMessage botMessage] }
  | .error _ =>
      let errorMessage := fallbackReply now
      let conv2 := { conv1 with messages := conv1.messages ++ [errorMessage] }
      { conversation := conv2, userMessage := userMessage, botReply := errorMessage,
        providerHistory := conv1.messages, aiErrorUsed := true,
        actions := [.emitTyping, .emitMessageSent userMessage, .emitStoppedTyping,
                    .persist conv2.messages, .emitBotMessage errorMessage] }

/-- The HTTP `sendMessage` body after validation and conversation lookup:
append the user message, call the provider with the last 10 messages; on
success append the reply, set `lastActivity` and save once; on failure save
the user message, append the fixed fallback reply and save again. -/
def sendMessageHttpCore (message : String) (conv0 : Conversation) (now : Nat)
    (ai : String → List ServerMsg → Except Unit AiResponse) : RouterOutcome :=
  let userMessage := userMessageOf message now
  let conv1 := { conv0 with messages := conv0.messages ++ [userMessage] }
  match ai message (sliceLast 10 conv1.messages) with
  | .ok aiResponse =>
      let botMessage := botMessageOf aiResponse now
      let conv2 := { conv1 with messages := conv1.messages ++ [botMessage],
                                lastActivity := now }
      { conversation := conv2, userMessage := userMessage, botReply := botMessage,
        providerHistory := sliceLast 10 conv1.messages, aiErrorUsed := false,
        actions := [.persist conv2.messages] }
  | .error _ =>
      let conv1b := { conv1 with lastActivity := now }
      let errorMessage := fallbackReply now
      let conv2 := { conv1b with messages := conv1b.messages ++ [errorMessage] }
      { conversation := conv2, userMessage := userMessage, botReply := errorMessage,
        providerHistory := sliceLast 10 conv1.messages, aiErrorUsed := true,
        actions := [.persist conv1b.messages, .persist conv2.messages] }

/-- Result of the HTTP `sendMessage` controller: a success payload or a 4xx
rejection with its error code.  Both provider branches respond 200. -/
inductive HttpReply
  | ok (outcome : RouterOutcome)
  | clientError (status : Nat) (code : String)
deriving Repr

/-- The HTTP `sendMessage` controller: validation (non-empty, at most 4000
characters), 404 when a supplied conversation id is not found, automatic
conversation creation when no id is supplied, then the shared send body. -/
def sendMessageHttp (message : String) (conversationIdArg : Option String)
    (userId : String) (found : Option Conversation) (sessionId : String) (now : Nat)
    (ai : String → List ServerMsg → Except Unit AiResponse) : HttpReply :=
  if jsTrim message = "" then .clientError 400 "EMPTY_MESSAGE"
  else if 4000 < message.length then .clientError 400 "MESSAGE_TOO_LONG"
  else
    match conversationIdArg with
    | some _ =>
        match found with
        | none => .clientError 404 "CONVERSATION_NOT_FOUND"
        | some conv0 => .ok (sendMessageHttpCore message conv0 now ai)
    | none =>
        .ok (sendMessageHttpCore message
              (newConversation userId sessionId message now) now ai)

/-- Scans an action trace keeping the set of already-persisted messages;
`true` when every `messageSent` emission is of a message persisted strictly
earlier in the trace. -/
def confirmsPersisted (seen : List ServerMsg) : List Action → Bool
  | [] => true
  | .persist l :: rest => confirmsPersisted (seen ++ l) rest
  | .emitMessageSent m :: rest => seen.contains m && confirmsPersisted seen rest
  | _ :: rest => confirmsPersisted seen rest

/-! ## Concrete fixtures used by counterexamples and witnesses -/

/-- An active client conversation with no messages yet. -/
def demoConv : ClientConv := { id := "c1", title := "t", messages := [], lastActivity := 0 }

/-- A client store in the connected state with `demoConv` active. -/
def demoStore : StoreState :=
  { currentConversation := some demoConv, socketExists := true,
    socketConnected := true, isConnected := true }

/-- The server-confirmed twin of the optimistic "Hello" message. -/
def demoUserMsg : ClientMsg :=
  { sender := "user", content := "Hello", timestamp := 2, messageType := "text" }

/-- A server-confirmed bot reply. -/
def demoBotMsg : ClientMsg :=
  { sender := "bot", content := "Hi!", timestamp := 3, messageType := "text" }

/-- `demoStore` right after the optimistic send of "Hello": one pending
message is outstanding. -/
def demoPending : StoreState := (sendMessageViaSocketOptimistic "Hello" 0 demoStore).2

/-- The conversation returned by the fallback request: the confirmed user
message and the bot reply. -/
def demoServerConv : ClientConv :=
  { id := "c1", title := "Hello", messages := [demoUserMsg, demoBotMsg], lastActivity := 3 }

/-- A fixed provider reply. -/
def demoAiResp : AiResponse :=
  { response := "Hi!",
    metadata := { model := "m", tokens := 1, confidenceTenths := 5,
                  contextUsed := false, isMock := false } }

/-- A provider stub that always answers. -/
def demoAiOk : String → List ServerMsg → Except Unit AiResponse :=
  fun _ _ => Except.ok demoAiResp

/-- A provider stub that always throws. -/
def demoAiBad : String → List ServerMsg → Except Unit AiResponse := fun _ _ => .error ()

/-! ## C1 — reconciliation idempotence -/

/-- C1, counterexample.  In a connected store holding one pending optimistic
message, applying the `messageSent` reconciliation handler twice with the
same server-confirmed message leaves that message in the list twice, not
exactly once: reconciliation is not idempotent. -/
theorem reconcile_twice_duplicates_cex :
    (onMessageSent 3 demoUserMsg
        (onMessageSent 2 demoUserMsg demoPending)).messages.count demoUserMsg = 2 ∧
    ¬ ((onMessageSent 3 demoUserMsg
        (onMessageSent 2 demoUserMsg demoPending)).messages.count demoUserMsg = 1) := by
  decide

/-- C1, amended.  One application of `reconcile` (the `messageSent` handler)
removes all pending-marked messages and appends the server-confirmed message
in their place — leaving it exactly once when it was not already present
among the non-pending messages — but a second application with the same
message appends a second copy: reconciliation is not idempotent. -/
theorem reconcile_once_replaces_second_duplicates
    (now now2 : Nat) (m : ClientMsg) (s : StoreState)
    (hc : s.currentConversation.isSome) (hm : m.temp = false) :
    (onMessageSent now m s).messages = s.messages.filter (fun x => !x.temp) ++ [m] ∧
    ((s.messages.filter (fun x => !x.temp)).count m = 0 →
      (onMessageSent now m s).messages.count m = 1) ∧
    (onMessageSent now2 m (onMessageSent now m s)).messages
      = s.messages.filter (fun x => !x.temp) ++ [m, m] := by
  obtain ⟨c, hcs⟩ := Option.isSome_iff_exists.mp hc
  refine ⟨?_, ?_, ?_⟩
  · simp [onMessageSent, addMessage, hcs]
  · intro h0
    simp [onMessageSent, addMessage, hcs, List.count_append, h0]
  · simp [onMessageSent, addMessage, hcs, List.filter_append, List.filter_filter, hm]

/-- C1, witness: the amended theorem instantiated at the pending "Hello"
store. -/
theorem reconcile_once_replaces_witness :
    demoPending.currentConversation.isSome ∧ demoUserMsg.temp = false ∧
    ((onMessageSent 2 demoUserMsg demoPending).messages
        = demoPending.messages.filter (fun x => !x.temp) ++ [demoUserMsg] ∧
      ((demoPending.messages.filter (fun x => !x.temp)).count demoUserMsg = 0 →
        (onMessageSent 2 demoUserMsg demoPending).messages.count demoUserMsg = 1) ∧
      (onMessageSent 3 demoUserMsg (onMessageSent 2 demoUserMsg demoPending)).messages
        = demoPending.messages.filter (fun x => !x.temp) ++ [demoUserMsg, demoUserMsg]) :=
  ⟨by decide, by decide,
    reconcile_once_replaces_second_duplicates 2 3 demoUserMsg demoPending (by decide) (by decide)⟩

/-! ## C2 — at most one pending optimistic message -/

/-- C2, counterexample.  With one unacknowledged pending message outstanding,
a second optimistic send is not rejected: it is accepted and a second
pending message is appended. -/
theorem second_pending_send_accepted_cex :
    pendingCount demoPending = 1 ∧
    (sendMessageOptimistic "hi" 1 demoPending).1 = true ∧
    pendingCount (sendMessageOptimistic "hi" 1 demoPending).2 = 2 := by
  decide

/-- C2, amended.  The store does not enforce at-most-one-pending: any
non-empty optimistic send is accepted, appending one more pending-marked
message regardless of how many are already outstanding; only an empty
message is rejected as a no-op with a caller-visible failure. -/
theorem optimistic_send_always_accepted
    (message : String) (now : Nat) (s : StoreState)
    (hc : s.currentConversation.isSome) (hne : jsTrim message ≠ "") :
    (sendMessageOptimistic message now s).1 = true ∧
    pendingCount (sendMessageOptimistic message now s).2 = pendingCount s + 1 ∧
    (sendMessageOptimistic "" now s).1 = false ∧
    (sendMessageOptimistic "" now s).2 = s := by
  obtain ⟨c, hcs⟩ := Option.isSome_iff_exists.mp hc
  refine ⟨?_, ?_, ?_, ?_⟩
  · simp [sendMessageOptimistic, hne]
  · simp [sendMessageOptimistic, hne, addMessage, hcs, pendingCount,
      List.filter_append, tempMessageOf]
  · rfl
  · rfl

/-- C2, witness: the amended theorem instantiated at the pending "Hello"
store and the message "hi". -/
theorem optimistic_send_always_accepted_witness :
    demoPending.currentConversation.isSome ∧ jsTrim "hi" ≠ "" ∧
    ((sendMessageOptimistic "hi" 1 demoPending).1 = true ∧
      pendingCount (sendMessageOptimistic "hi" 1 demoPending).2 = pendingCount demoPending + 1 ∧
      (sendMessageOptimistic "" 1 demoPending).1 = false ∧
      (sendMessageOptimistic "" 1 demoPending).2 = demoPending) :=
  ⟨by decide, by decide,
    optimistic_send_always_accepted "hi" 1 demoPending (by decide) (by decide)⟩

/-! ## C3 — timeout fallback and late confirmation -/

/-- C3, counterexample.  The scenario as claimed: the optimistic "Hello" is
pending, the 10s socket timeout clears it and falls back to the API, the
fallback reconciles the server conversation (one confirmed user message) —
and then a late `messageSent` confirmation for the same user message
arrives.  The final state holds the confirmed user message twice, not
exactly once. -/
theorem late_confirmation_duplicates_cex :
    (onMessageSent 4 demoUserMsg
        (onApiSendSuccess (some "c1") demoServerConv true
          (sendMessageOptimistic "Hello" 1
            (clearPendingMessages
              (sendMessageViaSocketOptimistic "Hello" 0 demoStore).2)).2)).messages.count
      demoUserMsg = 2 ∧
    ¬ ((onMessageSent 4 demoUserMsg
        (onApiSendSuccess (some "c1") demoServerConv true
          (sendMessageOptimistic "Hello" 1
            (clearPendingMessages
              (sendMessageViaSocketOptimistic "Hello" 0 demoStore).2)).2)).messages.count
      demoUserMsg = 1) := by
  decide

/-- C3, amended.  On socket timeout the coordinator does clear the pending
optimistic message before resubmitting via the fallback, and once the
fallback response reconciles, the state holds exactly one confirmed copy of
the user message — but only provided no late persistent-channel confirmation
fires afterwards: a late `messageSent` arriving after the fallback has
reconciled appends the confirmed message a second time, leaving two
copies. -/
theorem fallback_single_copy_until_late_confirmation
    (s : StoreState) (c conv : ClientConv) (um : ClientMsg)
    (cid : Option String) (up : Bool) (now : Nat)
    (hcur : s.currentConversation = some c) (hid : c.id = conv.id)
    (hcnt : conv.messages.count um = 1)
    (hnt : ∀ m ∈ conv.messages, m.temp = false) :
    pendingCount (clearPendingMessages s) = 0 ∧
    (onApiSendSuccess cid conv up s).messages = conv.messages ∧
    (onApiSendSuccess cid conv up s).messages.count um = 1 ∧
    (onMessageSent now um (onApiSendSuccess cid conv up s)).messages.count um = 2 := by
  have hclear : pendingCount (clearPendingMessages s) = 0 := by
    simp [pendingCount, clearPendingMessages, List.filter_filter]
  have hmsgs : (onApiSendSuccess cid conv up s).messages = conv.messages ∧
      (onApiSendSuccess cid conv up s).currentConversation.isSome := by
    simp only [onApiSendSuccess, hcur, hid, if_true]
    split
    · simp only [updateConversationTitle]
      split <;> simp
    · simp
  have hfe : conv.messages.filter (fun x => !x.temp) = conv.messages := by
    rw [List.filter_eq_self]
    intro a ha
    simp [hnt a ha]
  obtain ⟨hm, hcsome⟩ := hmsgs
  obtain ⟨c2, hc2⟩ := Option.isSome_iff_exists.mp hcsome
  refine ⟨hclear, hm, by rw [hm, hcnt], ?_⟩
  simp [onMessageSent, addMessage, hc2, hm, hfe, List.count_append, hcnt]

/-- C3, witness: the amended theorem instantiated at the concrete "Hello"
scenario. -/
theorem fallback_single_copy_witness :
    demoStore.currentConversation = some demoConv ∧
    demoConv.id = demoServerConv.id ∧
    demoServerConv.messages.count demoUserMsg = 1 ∧
    (pendingCount (clearPendingMessages demoStore) = 0 ∧
      (onApiSendSuccess (some "c1") demoServerConv true demoStore).messages
        = demoServerConv.messages ∧
      (onApiSendSuccess (some "c1") demoServerConv true demoStore).messages.count
          demoUserMsg = 1 ∧
      (onMessageSent 4 demoUserMsg
          (onApiSendSuccess (some "c1") demoServerConv true demoStore)).messages.count
          demoUserMsg = 2) :=
  ⟨by decide, by decide, by decide,
    fallback_single_copy_until_late_confirmation demoStore demoConv demoServerConv
      demoUserMsg (some "c1") true 4 (by decide) (by decide) (by decide)
      (by decide)⟩

/-! ## C7 — disconnect reason policy -/

/-- C7.  The `disconnect` handler triggers the reconnection logic exactly for
non-client-initiated reasons: a client-initiated disconnect is terminal
(no reconnection invoked, no retry scheduled, counters untouched), while a
server-initiated disconnect or any other transport reason invokes
`scheduleReconnection`, which below the retry ceiling schedules an automatic
reconnection attempt. -/
theorem disconnect_reason_policy (reason : String) (s : StoreState) :
    ((onDisconnect reason s).2.1 = true ↔ reason ≠ "io client disconnect") ∧
    (reason = "io client disconnect" →
      (onDisconnect reason s).2.2 = false ∧
      (onDisconnect reason s).1.reconnectTimeout = s.reconnectTimeout ∧
      (onDisconnect reason s).1.connectionRetries = s.connectionRetries) ∧
    (reason ≠ "io client disconnect" → s.connectionRetries < maxRetries →
      (onDisconnect reason s).2.2 = true ∧
      (onDisconnect reason s).1.reconnectTimeout = true ∧
      (onDisconnect reason s).1.connectionRetries = s.connectionRetries + 1) := by
  by_cases h2 : reason = "io client disconnect"
  · subst h2
    refine ⟨by simp [onDisconnect, setConnected], fun _ => ?_, fun h _ => absurd rfl h⟩
    simp [onDisconnect, setConnected]
  · by_cases h1 : reason = "io server disconnect"
    · subst h1
      refine ⟨by simp [onDisconnect, setConnected, h2], fun h => absurd h h2, fun _ hlt => ?_⟩
      simp only [onDisconnect, setConnected, scheduleReconnection]
      simp [Nat.not_le.mpr hlt]
    · refine ⟨by simp [onDisconnect, setConnected, h1, h2], fun h => absurd h h2, fun _ hlt => ?_⟩
      simp only [onDisconnect, setConnected, scheduleReconnection]
      simp [h1, h2, Nat.not_le.mpr hlt]

/-- C7, witness: a transport-error disconnect from the connected demo store
triggers a scheduled retry; a client-initiated one does not. -/
theorem disconnect_reason_policy_witness :
    ((onDisconnect "transport error" demoStore).2.1 = true ↔
      "transport error" ≠ "io client disconnect") ∧
    ((onDisconnect "transport error" demoStore).2.2 = true ∧
      (onDisconnect "transport error" demoStore).1.reconnectTimeout = true) ∧
    (onDisconnect "io client disconnect" demoStore).2.1 = false :=
  ⟨(disconnect_reason_policy "transport error" demoStore).1,
    ⟨((disconnect_reason_policy "transport error" demoStore).2.2 (by decide) (by decide)).1,
      ((disconnect_reason_policy "transport error" demoStore).2.2 (by decide) (by decide)).2.1⟩,
    by decide⟩

/-! ## C8 — cancellability of scheduled retries -/

/-- A store with a reconnection retry scheduled while the socket is down. -/
def demoRetryPending : StoreState :=
  { socketExists := true, socketConnected := false, reconnectTimeout := true,
    connectionRetries := 2 }

/-- C8, counterexample.  With a retry scheduled, a manual `reconnect()` does
NOT cancel the pending scheduled retry (only `disconnectSocket()` does): the
timer survives the superseding manual reconnect. -/
theorem manual_reconnect_keeps_pending_retry_cex :
    demoRetryPending.reconnectTimeout = true ∧
    (reconnect true demoRetryPending).reconnectTimeout = true ∧
    (disconnectSocket demoRetryPending).reconnectTimeout = false := by
  decide

/-- C8, amended.  An explicit disconnect cancels any pending scheduled retry,
and scheduling a new retry first cancels the previous one; but a manual
reconnect leaves a pending scheduled retry in place — the surviving timer's
callback merely refrains from issuing a duplicate connection attempt once
the socket is already connected. -/
theorem retry_cancellation (a : Bool) (s : StoreState) :
    (disconnectSocket s).reconnectTimeout = false ∧
    (scheduleReconnection s).1.reconnectTimeout = (scheduleReconnection s).2 ∧
    (reconnect a s).reconnectTimeout = s.reconnectTimeout ∧
    (s.socketConnected = true → s.socketExists = true →
      (reconnectTimerFire a s).2 = false) := by
  refine ⟨?_, ?_, ?_, ?_⟩
  · simp only [disconnectSocket, setConnected]
    split <;> rfl
  · simp only [scheduleReconnection]
    split <;> rfl
  · simp only [reconnect, connectSocket]
    split
    · rfl
    · split <;> rfl
  · intro h1 h2
    simp [reconnectTimerFire, h1, h2]

/-- C8, witness: the amended theorem instantiated at the pending-retry
store. -/
theorem retry_cancellation_witness :
    (disconnectSocket demoRetryPending).reconnectTimeout = false ∧
    (scheduleReconnection demoRetryPending).1.reconnectTimeout
      = (scheduleReconnection demoRetryPending).2 ∧
    (reconnect true demoRetryPending).reconnectTimeout
      = demoRetryPending.reconnectTimeout ∧
    (demoRetryPending.socketConnected = true → demoRetryPending.socketExists = true →
      (reconnectTimerFire true demoRetryPending).2 = false) :=
  retry_cancellation true demoRetryPending

/-! ## C5 — provider failure produces a fallback reply -/

/-- C5.  When every provider call fails, the socket router still persists the
user message, clears the typing signal, persists and emits the fixed
apologetic fallback reply carrying `metadata.error = true`, and emits no
error event; the HTTP controller likewise still responds success with the
same fallback reply — the raw provider error is never surfaced as a send
failure, and the conversation is never left without a reply. -/
theorem provider_failure_fallback
    (message userId sessionId : String) (found : Option Conversation) (now : Nat)
    (ai : String → List ServerMsg → Except Unit AiResponse)
    (hfail : ∀ m h, ai m h = .error ())
    (hne : jsTrim message ≠ "") (hlen : message.length ≤ 4000) :
    (userMessageOf message now ∈
        (handleNewMessage message userId found sessionId now ai).conversation.messages ∧
      Action.persist
          (handleNewMessage message userId found sessionId now ai).conversation.messages ∈
        (handleNewMessage message userId found sessionId now ai).actions ∧
      Action.emitStoppedTyping ∈
        (handleNewMessage message userId found sessionId now ai).actions ∧
      (handleNewMessage message userId found sessionId now ai).botReply = fallbackReply now ∧
      (fallbackReply now).metadata = MsgMetadata.errorFlag ∧
      fallbackReply now ∈
        (handleNewMessage message userId found sessionId now ai).conversation.messages ∧
      Action.emitBotMessage (fallbackReply now) ∈
        (handleNewMessage message userId found sessionId now ai).actions ∧
      (∀ t, Action.emitError t ∉
        (handleNewMessage message userId found sessionId now ai).actions)) ∧
    (sendMessageHttp message none userId found sessionId now ai =
        .ok (sendMessageHttpCore message (newConversation userId sessionId message now) now ai) ∧
      userMessageOf message now ∈
        (sendMessageHttpCore message
          (newConversation userId sessionId message now) now ai).conversation.messages ∧
      (sendMessageHttpCore message
          (newConversation userId sessionId message now) now ai).botReply = fallbackReply now) := by
  constructor
  · simp [handleNewMessage, hfail, fallbackReply]
  · refine ⟨?_, ?_, ?_⟩
    · simp [sendMessageHttp, hne, Nat.not_lt.mpr hlen]
    · simp [sendMessageHttpCore, hfail]
    · simp [sendMessageHttpCore, hfail]

/-- C5, witness: the theorem instantiated at the always-failing provider stub
and the message "Hello". -/
theorem provider_failure_fallback_witness :
    (∀ m h, demoAiBad m h = .error ()) ∧ jsTrim "Hello" ≠ "" ∧ "Hello".length ≤ 4000 ∧
    ((handleNewMessage "Hello" "u1" none "sid" 0 demoAiBad).botReply = fallbackReply 0 ∧
      fallbackReply 0 ∈
        (handleNewMessage "Hello" "u1" none "sid" 0 demoAiBad).conversation.messages ∧
      userMessageOf "Hello" 0 ∈
        (handleNewMessage "Hello" "u1" none "sid" 0 demoAiBad).conversation.messages ∧
      sendMessageHttp "Hello" none "u1" none "sid" 0 demoAiBad =
        .ok (sendMessageHttpCore "Hello" (newConversation "u1" "sid" "Hello" 0) 0 demoAiBad)) :=
  ⟨fun _ _ => rfl, by decide, by decide,
    ((provider_failure_fallback "Hello" "u1" "sid" none 0 demoAiBad (fun _ _ => rfl)
        (by decide) (by decide)).1.2.2.2.1),
    ((provider_failure_fallback "Hello" "u1" "sid" none 0 demoAiBad (fun _ _ => rfl)
        (by decide) (by decide)).1.2.2.2.2.2.1),
    ((provider_failure_fallback "Hello" "u1" "sid" none 0 demoAiBad (fun _ _ => rfl)
        (by decide) (by decide)).1.1),
    ((provider_failure_fallback "Hello" "u1" "sid" none 0 demoAiBad (fun _ _ => rfl)
        (by decide) (by decide)).2.1)⟩

/-! ## C9 — messageSent versus persistence -/

/-- C9, counterexample.  For the concrete message "Hello" with a fresh
conversation and a succeeding provider, the socket router's action trace
emits `messageSent` before any save of the conversation: the confirmed user
message has NOT been persisted at the time of emission. -/
theorem messageSent_before_persist_cex :
    confirmsPersisted [] (handleNewMessage "Hello" "u1" none "sid" 0 demoAiOk).actions = false ∧
    Action.emitMessageSent (userMessageOf "Hello" 0) ∈
      (handleNewMessage "Hello" "u1" none "sid" 0 demoAiOk).actions := by
  decide

/-- C9, amended.  `messageSent` confirms the user message appended to the
in-memory conversation, not a persisted one: the emission always precedes
every save of the conversation, and the user message is persisted only later
(it is contained in the conversation state written by a subsequent save). -/
theorem messageSent_emitted_before_persist
    (message userId sessionId : String) (found : Option Conversation) (now : Nat)
    (ai : String → List ServerMsg → Except Unit AiResponse) :
    Action.emitMessageSent (handleNewMessage message userId found sessionId now ai).userMessage ∈
      (handleNewMessage message userId found sessionId now ai).actions ∧
    confirmsPersisted []
      (handleNewMessage message userId found sessionId now ai).actions = false ∧
    (handleNewMessage message userId found sessionId now ai).userMessage ∈
      (handleNewMessage message userId found sessionId now ai).conversation.messages ∧
    Action.persist (handleNewMessage message userId found sessionId now ai).conversation.messages ∈
      (handleNewMessage message userId found sessionId now ai).actions := by
  cases hai : ai message
      ((match found with
        | some c => c
        | none => newConversation userId sessionId message now).messages ++
        [userMessageOf message now]) with
  | ok resp => simp [handleNewMessage, hai, confirmsPersisted]
  | error e => simp [handleNewMessage, hai, confirmsPersisted]

/-- C9, witness: the amended theorem instantiated at the "Hello" send with
the succeeding provider stub. -/
theorem messageSent_emitted_before_persist_witness :
    Action.emitMessageSent (handleNewMessage "Hello" "u1" none "sid" 0 demoAiOk).userMessage ∈
      (handleNewMessage "Hello" "u1" none "sid" 0 demoAiOk).actions ∧
    confirmsPersisted []
      (handleNewMessage "Hello" "u1" none "sid" 0 demoAiOk).actions = false ∧
    (handleNewMessage "Hello" "u1" none "sid" 0 demoAiOk).userMessage ∈
      (handleNewMessage "Hello" "u1" none "sid" 0 demoAiOk).conversation.messages ∧
    Action.persist (handleNewMessage "Hello" "u1" none "sid" 0 demoAiOk).conversation.messages ∈
      (handleNewMessage "Hello" "u1" none "sid" 0 demoAiOk).actions :=
  messageSent_emitted_before_persist "Hello" "u1" "sid" none 0 demoAiOk

/-! ## C6 — the two transports perform the same operation -/

/-- C6.  For one valid message with no prior conversation, the persistent
channel path and the synchronous fallback path perform the same operation:
the fallback accepts the message, both append the same user message, invoke
the same completion step with the same bounded recent history (here exactly
the single user message), and both produce the same saved Conversation
holding exactly the user message and the reply, with identical data. -/
theorem dual_path_same_operation
    (message userId sessionId : String) (now : Nat)
    (ai : String → List ServerMsg → Except Unit AiResponse) (resp : AiResponse)
    (hne : jsTrim message ≠ "") (hlen : message.length ≤ 4000)
    (hai : ai message [userMessageOf message now] = .ok resp) :
    sendMessageHttp message none userId none sessionId now ai =
      .ok (sendMessageHttpCore message (newConversation userId sessionId message now) now ai) ∧
    (sendMessageHttpCore message (newConversation userId sessionId message now) now ai).conversation =
      (handleNewMessage message userId none sessionId now ai).conversation ∧
    (sendMessageHttpCore message (newConversation userId sessionId message now) now ai).providerHistory =
      (handleNewMessage message userId none sessionId now ai).providerHistory ∧
    (handleNewMessage message userId none sessionId now ai).providerHistory =
      [userMessageOf message now] ∧
    (sendMessageHttpCore message (newConversation userId sessionId message now) now ai).userMessage =
      (handleNewMessage message userId none sessionId now ai).userMessage ∧
    (sendMessageHttpCore message (newConversation userId sessionId message now) now ai).botReply =
      (handleNewMessage message userId none sessionId now ai).botReply ∧
    (handleNewMessage message userId none sessionId now ai).conversation.messages =
      [userMessageOf message now, botMessageOf resp now] := by
  have hs : sliceLast 10 [userMessageOf message now] = [userMessageOf message now] := by
    simp [sliceLast]
  have hkey : ai message (sliceLast 10 [userMessageOf message now]) = .ok resp := by
    rw [hs]; exact hai
  refine ⟨by simp [sendMessageHttp, hne, Nat.not_lt.mpr hlen], ?_, ?_, ?_, ?_, ?_, ?_⟩ <;>
    simp [sendMessageHttpCore, handleNewMessage, newConversation, hkey, hai, hs]

/-- C6, witness: the theorem instantiated at the "Hello" send with the
succeeding provider stub and its fixed reply. -/
theorem dual_path_same_operation_witness :
    jsTrim "Hello" ≠ "" ∧ "Hello".length ≤ 4000 ∧
    demoAiOk "Hello" [userMessageOf "Hello" 0] = .ok demoAiResp ∧
    ((sendMessageHttpCore "Hello" (newConversation "u1" "sid" "Hello" 0) 0 demoAiOk).conversation =
        (handleNewMessage "Hello" "u1" none "sid" 0 demoAiOk).conversation ∧
      (handleNewMessage "Hello" "u1" none "sid" 0 demoAiOk).conversation.messages =
        [userMessageOf "Hello" 0, botMessageOf demoAiResp 0]) :=
  ⟨by decide, by decide, rfl,
    (dual_path_same_operation "Hello" "u1" "sid" 0 demoAiOk demoAiResp
        (by decide) (by decide) rfl).2.1,
    (dual_path_same_operation "Hello" "u1" "sid" 0 demoAiOk demoAiResp
        (by decide) (by decide) rfl).2.2.2.2.2.2⟩

/-! ## C10 — the provider service is total and the router's failure branch is
unreachable with it -/

/-- Classifies the provider outcomes on which the raw OpenAI call does not
yield a usable completion. -/
def outcomeFails : ProviderOutcome → Bool
  | .success (some _) _ _ => false
  | _ => true

/-- A clean service state: API key present, no failures, not rate limited. -/
def demoSvcState : AiServiceState :=
  { useMockResponse := false, failureCount := 0, rateLimited := false }

/-- C10.  `generateResponse` is total: wired to the router it always returns
a reply (never the error side), every provider failure is converted into a
mock response whose metadata carries `isMock = true`, and consequently the
completion-failure branches of both routers are unreachable with this
provider: the fallback branch flag stays false and the reply's metadata is
never the `{ error: true }` marker. -/
theorem generateResponse_never_throws
    (msg message userId sessionId : String) (hist : List ServerMsg)
    (st : AiServiceState) (o : ProviderOutcome)
    (found : Option Conversation) (conv0 : Conversation) (now : Nat) :
    providerOfService st o msg hist = .ok (generateResponse msg hist st o).1 ∧
    (outcomeFails o = true → (generateResponse msg hist st o).1.metadata.isMock = true) ∧
    (handleNewMessage message userId found sessionId now
        (providerOfService st o)).aiErrorUsed = false ∧
    (handleNewMessage message userId found sessionId now
        (providerOfService st o)).botReply.metadata ≠ MsgMetadata.errorFlag ∧
    (sendMessageHttpCore message conv0 now (providerOfService st o)).aiErrorUsed = false := by
  refine ⟨rfl, ?_, rfl, ?_, rfl⟩
  · intro hf
    cases o with
    | success content model tokens =>
        cases content with
        | some c => simp [outcomeFails] at hf
        | none =>
            simp only [generateResponse]
            split_ifs <;> simp [getMockResponse]
    | errStatus status =>
        simp only [generateResponse]
        split_ifs <;> simp [getMockResponse]
    | abortTimeout =>
        simp only [generateResponse]
        split_ifs <;> simp [getMockResponse]
    | otherError =>
        simp only [generateResponse]
        split_ifs <;> simp [getMockResponse]
  · intro h
    exact MsgMetadata.noConfusion h

/-- C10, witness: a rate-limited (429) outcome in a clean service state is a
failure, yet yields a mock reply and leaves the router's failure branch
untaken. -/
theorem generateResponse_never_throws_witness :
    outcomeFails (ProviderOutcome.errStatus 429) = true ∧
    (generateResponse "Hello" [] demoSvcState (.errStatus 429)).1.metadata.isMock = true ∧
    (handleNewMessage "Hello" "u1" none "sid" 0
        (providerOfService demoSvcState (.errStatus 429))).aiErrorUsed = false :=
  ⟨by decide,
    (generateResponse_never_throws "Hello" "Hello" "u1" "sid" [] demoSvcState
        (.errStatus 429) none (newConversation "u1" "sid" "Hello" 0) 0).2.1 (by decide),
    (generateResponse_never_throws "Hello" "Hello" "u1" "sid" [] demoSvcState
        (.errStatus 429) none (newConversation "u1" "sid" "Hello" 0) 0).2.2.1⟩

/-! ## C4 — retry counter and ceiling invariants -/

/-- Invariant of a lifecycle run: the number of attempts scheduled since the
last successful connect equals `connectionRetries`, which never exceeds the
ceiling, and a connected store has a reset counter. -/
def connInv (s : StoreState) (n : Nat) : Prop :=
  n = s.connectionRetries ∧ s.connectionRetries ≤ maxRetries ∧
    (s.isConnected = true → s.connectionRetries = 0)

/-- One lifecycle event preserves the invariant, with the attempt counter
updated exactly as `runConn` updates it. -/
theorem connInv_step (s : StoreState) (n : Nat) (e : ConnEvent) (h : connInv s n) :
    connInv (stepConn s e).1
      (match e with
       | .connected => 0
       | _ => n + (if (stepConn s e).2 then 1 else 0)) := by
  obtain ⟨h1, h2, h3⟩ := h
  cases e with
  | connected => simp [connInv, stepConn, onConnect, setConnected]
  | connectError m =>
      simp only [stepConn, onConnectError, setConnected, scheduleReconnection]
      split_ifs <;> simp_all [connInv] <;> omega
  | disconnected r =>
      simp only [stepConn, onDisconnect, setConnected, scheduleReconnection]
      split_ifs <;> simp_all [connInv] <;> omega

/-- A whole lifecycle run preserves the invariant. -/
theorem runConn_inv (es : List ConnEvent) (s : StoreState) (n : Nat) (h : connInv s n) :
    connInv (runConn s n es).1 (runConn s n es).2 := by
  induction es generalizing s n with
  | nil => exact h
  | cons e es ih =>
      simp only [runConn]
      exact ih _ _ (connInv_step s n e h)

/-- At the retry ceiling no event except a successful connect can schedule a
further automatic attempt. -/
theorem stepConn_at_ceiling (s : StoreState) (e : ConnEvent)
    (h5 : maxRetries ≤ s.connectionRetries) : (stepConn s e).2 = false := by
  cases e with
  | connected => rfl
  | connectError m =>
      simp only [stepConn, onConnectError, setConnected, scheduleReconnection]
      split_ifs <;> simp_all
  | disconnected r =>
      simp only [stepConn, onDisconnect, setConnected, scheduleReconnection]
      split_ifs <;> simp_all

/-- C4.  Over every sequence of connect, connect-error and disconnect events
from the initial store: the retry counter resets to 0 on any successful
connect; neither the counter nor the number of automatic reconnection
attempts scheduled since the last connect ever exceeds `maxRetries` (5);
once the ceiling is reached the `connectionStatus` getter reports "failed";
and at the ceiling no further automatic reconnection attempt is scheduled by
any event. -/
theorem retry_ceiling_respected (es : List ConnEvent) :
    (runConn initStore 0 es).2 ≤ maxRetries ∧
    (runConn initStore 0 es).1.connectionRetries ≤ maxRetries ∧
    (∀ s : StoreState, (stepConn s .connected).1.connectionRetries = 0) ∧
    (maxRetries ≤ (runConn initStore 0 es).1.connectionRetries →
      connectionStatus (runConn initStore 0 es).1 = "failed") ∧
    (∀ e, maxRetries ≤ (runConn initStore 0 es).1.connectionRetries →
      (stepConn (runConn initStore 0 es).1 e).2 = false) := by
  have hinv := runConn_inv es initStore 0 ⟨rfl, by simp [initStore, maxRetries], by simp [initStore]⟩
  obtain ⟨h1, h2, h3⟩ := hinv
  refine ⟨h1 ▸ h2, h2, ?_, ?_, ?_⟩
  · intro s
    simp [stepConn, onConnect, setConnected]
  · intro hge
    have hnc : (runConn initStore 0 es).1.isConnected = false := by
      cases hh : (runConn initStore 0 es).1.isConnected with
      | false => rfl
      | true =>
          rw [h3 hh] at hge
          simp [maxRetries] at hge
    have hlt : ¬ (runConn initStore 0 es).1.connectionRetries < maxRetries := by omega
    simp [connectionStatus, hnc, hge, hlt]
  · intro e hge
    exact stepConn_at_ceiling _ e hge

/-- Six consecutive connection errors: one more than the retry ceiling. -/
def demoFailRun : List ConnEvent :=
  [.connectError "refused", .connectError "refused", .connectError "refused",
   .connectError "refused", .connectError "refused", .connectError "refused"]

/-- C4, witness: after six straight connect errors the schedule counter sits
at the ceiling, the status getter reports failure and a further connect
error schedules nothing. -/
theorem retry_ceiling_respected_witness :
    (runConn initStore 0 demoFailRun).2 ≤ maxRetries ∧
    connectionStatus (runConn initStore 0 demoFailRun).1 = "failed" ∧
    (stepConn (runConn initStore 0 demoFailRun).1 (.connectError "refused")).2 = false :=
  ⟨(retry_ceiling_respected demoFailRun).1,
    (retry_ceiling_respected demoFailRun).2.2.2.1 (by decide),
    (retry_ceiling_respected demoFailRun).2.2.2.2 (.connectError "refused") (by decide)⟩

end ChatApp
